import Mathlib

/-!
Verification development for the aws-sih repository (a fork of the AWS
Serverless Image Handler).  The repository is CDK infrastructure code
(`source/constructs/lib/back-end/back-end-construct.ts`) plus a thin
image-request handler.  This file gives a shallow embedding of

  * the CloudFront cache policy, origin request policy, viewer-request
    accept-header normalization function and distribution properties
    declared by `BackEnd` in `back-end-construct.ts`, and
  * the request-handler pipeline (request decoding, source-image fetch,
    edit application, fallback-image handling and the error taxonomy).

The handler implementation files themselves (`source/image-handler/index.ts`,
`image-request.ts`, `image-handler.ts`) are not part of the staged sources;
their behaviour is modelled from the specification, the README and the unit
tests (`test/index.spec.ts`, `test/image-request/decode-request.spec.ts`),
which pin down concrete input/output pairs.  Definitions modelled this way
carry a doc comment starting with `Modelled from the spec:`.
-/

namespace AwsSih

/-! ## Generic character-list helpers (executable, kernel-reducible) -/

/-- `listStartsWith s pat` is true when `pat` is a prefix of `s`. -/
def listStartsWith : List Char → List Char → Bool
  | _, [] => true
  | [], _ :: _ => false
  | a :: as, b :: bs => a == b && listStartsWith as bs

/-- `listIncludes s pat` is true when `pat` occurs as a contiguous
subsequence of `s`; it embeds JavaScript `String.prototype.includes`. -/
def listIncludes : List Char → List Char → Bool
  | [], pat => pat.isEmpty
  | s@(_ :: rest), pat => listStartsWith s pat || listIncludes rest pat

/-- `strIncludes s pat` embeds JavaScript `s.includes(pat)`. -/
def strIncludes (s pat : String) : Bool :=
  listIncludes s.data pat.data

/-- split a character list on a separator character, JavaScript
`String.prototype.split` style: `splitOnChar '/' "a/b"` gives `[a, b]`
and the empty list splits to `[[]]`. -/
def splitOnChar (c : Char) : List Char → List (List Char)
  | [] => [[]]
  | a :: as =>
    let r := splitOnChar c as
    if a == c then [] :: r
    else
      match r with
      | [] => [[a]]
      | h :: t => (a :: h) :: t

/-- join character lists with `'/'` between them. -/
def joinSlash : List (List Char) → List Char
  | [] => []
  | [x] => x
  | x :: xs => x ++ '/' :: joinSlash xs

/-- drop surrounding whitespace, JavaScript `String.prototype.trim` style. -/
def trimChars (l : List Char) : List Char :=
  ((l.dropWhile Char.isWhitespace).reverse.dropWhile Char.isWhitespace).reverse

/-- embeds the `isNullOrWhiteSpace` utility of the image handler: true on
the empty string and on strings of only whitespace. -/
def isNullOrWhitespaceStr (s : String) : Bool :=
  s.data.all Char.isWhitespace

/-- first-match lookup in an association list (JavaScript query-string /
header maps hold at most one value per key in the modelled events). -/
def lookupFirst (l : List (String × String)) (k : String) : Option String :=
  (l.find? (fun p => p.1 == k)).map (fun p => p.2)

/-! ## Base64 (the handler returns bodies via `Buffer.toString("base64")`) -/

/-- the base64 alphabet. -/
def base64Chars : List Char :=
  "ABCDEFGHIJKLMNOPQRSTUVWXYZabcdefghijklmnopqrstuvwxyz0123456789+/".data

/-- the base64 digit for a 6-bit value. -/
def b64c (n : Nat) : Char :=
  base64Chars.getD n 'A'

/-- standard base64 of a byte list, with `=` padding. -/
def base64Aux : List Nat → List Char
  | [] => []
  | [a] => [b64c (a / 4), b64c (a % 4 * 16), '=', '=']
  | [a, b] => [b64c (a / 4), b64c (a % 4 * 16 + b / 16), b64c (b % 16 * 4), '=']
  | a :: b :: c :: rest =>
    b64c (a / 4) :: b64c (a % 4 * 16 + b / 16) :: b64c (b % 16 * 4 + c / 64) ::
      b64c (c % 64) :: base64Aux rest

/-- `base64Encode bytes` embeds `Buffer.from(bytes).toString("base64")`. -/
def base64Encode (bs : List Nat) : String :=
  String.mk (base64Aux bs)

/-- the bytes of an ASCII string, for concrete test images. -/
def stringBytes (s : String) : List Nat :=
  s.data.map Char.toNat

/-! ## CloudFront configuration declared in `back-end-construct.ts` -/

/-- the `queryStringParameters` allowlist constant of
`back-end-construct.ts` (lines 43-49). -/
def queryStringParameters : List String :=
  ["signature", "edits", "headers", "effort", "outputFormat"]

/-- the fields of a CloudFront cache policy that `BackEnd` sets. -/
structure CachePolicyConfig where
  cachePolicyName : String
  defaultTtlSeconds : Nat
  minTtlSeconds : Nat
  maxTtlSeconds : Nat
  enableAcceptEncodingGzip : Bool
  headerAllowList : List String
  queryStringAllowList : List String
deriving DecidableEq

/-- the `CachePolicy` constructed in `back-end-construct.ts` (lines
168-176): default TTL one day, minimum one second, maximum 365 days, and
an allowlist cache key of the `origin` and `accept` headers plus the five
`queryStringParameters`. -/
def cachePolicy (uuid : String) : CachePolicyConfig :=
  { cachePolicyName := "ServerlessImageHandler-" ++ uuid
    defaultTtlSeconds := 86400
    minTtlSeconds := 1
    maxTtlSeconds := 365 * 86400
    enableAcceptEncodingGzip := false
    headerAllowList := ["origin", "accept"]
    queryStringAllowList := queryStringParameters }

/-- the fields of a CloudFront origin request policy that `BackEnd` sets. -/
structure OriginRequestPolicyConfig where
  originRequestPolicyName : String
  headerAllowList : List String
  queryStringAllowList : List String
deriving DecidableEq

/-- the `OriginRequestPolicy` constructed in `back-end-construct.ts`
(lines 178-182): the same header and query-string allowlists as the cache
policy. -/
def originRequestPolicy (uuid : String) : OriginRequestPolicyConfig :=
  { originRequestPolicyName := "ServerlessImageHandler-" ++ uuid
    headerAllowList := ["origin", "accept"]
    queryStringAllowList := queryStringParameters }

/-- a viewer request as the CloudFront policies see it: header and
query-string maps (first match wins on lookup). -/
structure ViewerRequest where
  headers : List (String × String)
  queryParams : List (String × String)
deriving DecidableEq

/-- the projection of a request onto given header and query-string
allowlists: the part of the request a policy lets through. -/
def policyKeyOf (headerAllow qsAllow : List String) (r : ViewerRequest) :
    List (String × Option String) × List (String × Option String) :=
  (headerAllow.map (fun k => (k, lookupFirst r.headers k)),
   qsAllow.map (fun k => (k, lookupFirst r.queryParams k)))

/-- the cache key CloudFront computes for a request under the solution's
cache policy. -/
def cacheKeyOf (uuid : String) (r : ViewerRequest) :
    List (String × Option String) × List (String × Option String) :=
  policyKeyOf (cachePolicy uuid).headerAllowList (cachePolicy uuid).queryStringAllowList r

/-- the headers and query string CloudFront forwards to the origin under
the solution's origin request policy. -/
def forwardedOf (uuid : String) (r : ViewerRequest) :
    List (String × Option String) × List (String × Option String) :=
  policyKeyOf (originRequestPolicy uuid).headerAllowList
    (originRequestPolicy uuid).queryStringAllowList r

/-! ## The viewer-request accept-header normalization function -/

/-- the headers object of a CloudFront Functions event request; `accept`
is `none` when the header is absent. -/
structure CloudFrontHeaders where
  accept : Option String
  rest : List (String × String)
deriving DecidableEq

/-- a CloudFront Functions event request. -/
structure CloudFrontRequest where
  uri : String
  headers : CloudFrontHeaders
deriving DecidableEq

/-- embeds the inline JavaScript of `normalizeAcceptHeaderFunction` in
`back-end-construct.ts` (lines 199-215): when the accept header is present
and its value truthy (non-empty), the value is replaced by `image/webp`
when it contains `image/webp` and by `image/jpg` otherwise; the request is
returned unchanged otherwise. -/
def normalizeAcceptHeader (request : CloudFrontRequest) : CloudFrontRequest :=
  match request.headers.accept with
  | some v =>
    if v = "" then request
    else
      let resultingHeader := if strIncludes v "image/webp" then "image/webp" else "image/jpg"
      { request with headers := { request.headers with accept := some resultingHeader } }
  | none => request

/-! ## The CloudFront distribution properties -/

/-- one entry of `errorResponses` in the distribution properties. -/
structure ErrorResponseConfig where
  httpStatus : Nat
  ttlSeconds : Nat
deriving DecidableEq

/-- the distribution properties `BackEnd` assembles, with the
deployment-dependent options as parameters. -/
structure DistributionConfig where
  comment : String
  allowedMethods : List String
  viewerProtocolPolicy : String
  domainNames : Option (List String)
  certificate : Option String
  priceClass : String
  enableLogging : Bool
  logFilePrefix : String
  errorResponses : List ErrorResponseConfig
  originShieldRegion : Option String
deriving DecidableEq

/-- embeds `cloudFrontDistributionProps` of `back-end-construct.ts` (lines
217-245) together with the custom-domain and origin-shield property
overrides (lines 284-319): the default behavior allows only GET and HEAD,
viewer protocol HTTPS only, and each origin error status 500-504 is cached
for 10 minutes (600 seconds); domain names, certificate, price class and
origin shield vary with the deployment options. -/
def cloudFrontDistributionProps (customDomain : Option String)
    (certificate : Option String) (priceClass : String)
    (originShieldEnabled : Bool) (originShieldRegion : String) : DistributionConfig :=
  { comment := "Image Handler Distribution for Serverless Image Handler"
    allowedMethods := ["GET", "HEAD"]
    viewerProtocolPolicy := "https-only"
    domainNames := customDomain.map (fun d => [d])
    certificate := certificate
    priceClass := priceClass
    enableLogging := true
    logFilePrefix := "api-cloudfront/"
    errorResponses :=
      [{ httpStatus := 500, ttlSeconds := 600 },
       { httpStatus := 501, ttlSeconds := 600 },
       { httpStatus := 502, ttlSeconds := 600 },
       { httpStatus := 503, ttlSeconds := 600 },
       { httpStatus := 504, ttlSeconds := 600 }]
    originShieldRegion := if originShieldEnabled then some originShieldRegion else none }

/-! ## The image-handler pipeline

The implementation files `source/image-handler/index.ts`,
`image-request.ts` and `image-handler.ts` are not among the staged
sources; the definitions below are modelled from the specification, the
README's URL-scheme description and the unit tests, which fix concrete
input/output pairs.  The third-party image library (sharp) performs all
pixel work and is out of scope; edits other than the repository's own
overlay-dimension check are modelled as opaque but executable image
transformations. -/

/-- an in-flight JavaScript error value: the image handler's
`ImageHandlerError` carries `status`, `code` and `message`; a raw runtime
error (for example a `TypeError` from an unknown edit key) carries no
`status`. -/
structure JsError where
  status : Option Nat
  code : String
  message : Option String
deriving DecidableEq

/-- an image as the model sees it: its bytes plus the metadata (width and
height) that the image library would report. -/
structure Image where
  bytes : List Nat
  width : Nat
  height : Nat
deriving DecidableEq

/-- an object-storage (S3) object: an image body plus the response fields
the handler copies into its headers. -/
structure S3Object where
  body : Image
  contentType : Option String
  cacheControl : Option String
  expires : Option String
  lastModified : Option String
deriving DecidableEq

/-- an object-storage model: `getObject` keyed by bucket and key, either
an object or a rejection error. -/
abbrev S3Model : Type :=
  String → String → Except JsError S3Object

/-- the trace of `getObject` calls a run issues, as (bucket, key) pairs. -/
abbrev Trace : Type :=
  List (String × String)

/-- Modelled from the spec: one edit of the `edits` object (the JSON
query-string decoding itself is not claimed and events carry the decoded
edits).  `overlayWith` names an overlay source object; `known` is any edit
the image library itself performs (resize, crop, blur, ...); `unknown` is
an edit key the library has no method for, which raises a status-less
runtime error. -/
inductive Edit where
  | overlayWith (bucket key : String)
  | known (name : String)
  | unknown (name : String)
deriving DecidableEq

/-- Modelled from the spec: the request event of the handler
(`ImageHandlerEvent` in `source/image-handler/lib`, staged as
`src/unnamed/part_000`): a path, optional decoded edits and custom
headers, and whether the request came through an ALB. -/
structure HandlerEvent where
  path : Option String
  edits : Option (List Edit)
  customHeaders : Option (List (String × String))
  isAlb : Bool
deriving DecidableEq

/-- Modelled from the spec: the handler's process environment variables
set by `back-end-construct.ts` (lines 123-138). -/
structure Env where
  corsEnabled : String
  corsOrigin : String
  sourceBuckets : String
  enableDefaultFallbackImage : String
  defaultFallbackImageBucket : String
  defaultFallbackImageKey : String
deriving DecidableEq

/-- a header value: JavaScript response header maps hold strings, the
boolean `true` (Access-Control-Allow-Credentials) or `undefined`. -/
inductive HVal where
  | s (v : String)
  | b (v : Bool)
  | undef
deriving DecidableEq

/-- a header value from an optional string, `undefined` when absent. -/
def hopt : Option String → HVal
  | some v => HVal.s v
  | none => HVal.undef

/-- last-match lookup in a response-header list: later entries override
earlier ones, as JavaScript object spread does. -/
def getHeader (hs : List (String × HVal)) (k : String) : Option HVal :=
  hs.foldl (fun acc p => if p.1 == k then some p.2 else acc) none

/-- the result type of the handler (`ImageHandlerExecutionResult` in
`src/unnamed/part_000`, lines 68-73). -/
structure ExecResult where
  statusCode : Nat
  isBase64Encoded : Bool
  headers : List (String × HVal)
  body : String
deriving DecidableEq

/-- the decoded request: the bucket and key extracted from the path. -/
structure DecodedRequest where
  bucket : String
  key : String
deriving DecidableEq

/-- Modelled from the spec: `getResponseHeaders` of
`source/image-handler/index.ts` (absent from the staged sources), as
pinned down by every expected result of `test/index.spec.ts`: CORS
method/header entries always, credentials unless the request came from an
ALB, an origin entry when CORS is enabled, and a JSON content type on
error responses. -/
def getResponseHeaders (env : Env) (isErr isAlb : Bool) : List (String × HVal) :=
  [("Access-Control-Allow-Methods", HVal.s "GET"),
   ("Access-Control-Allow-Headers", HVal.s "Content-Type, Authorization")]
  ++ (if isAlb then [] else [("Access-Control-Allow-Credentials", HVal.b true)])
  ++ (if env.corsEnabled = "Yes" then [("Access-Control-Allow-Origin", HVal.s env.corsOrigin)] else [])
  ++ (if isErr then [("Content-Type", HVal.s "application/json")] else [])

/-- the `DecodeRequest::CannotReadPath` error of `ImageRequest.decodeRequest`,
message as asserted by `test/image-request/decode-request.spec.ts`. -/
def cannotReadPathError : JsError :=
  { status := some 400
    code := "DecodeRequest::CannotReadPath"
    message := some "The URL path you provided could not be read. Please ensure that it is properly formed according to the solution documentation." }

/-- the first bucket of the comma-separated `SOURCE_BUCKETS` variable,
trimmed. -/
def getDefaultBucket (sourceBuckets : String) : String :=
  String.mk (trimChars ((splitOnChar ',' sourceBuckets.data).headD []))

/-- Modelled from the spec: the fork's URL-path parsing (its
`image-request.ts` is absent from the staged sources).  Per the README's
URL scheme and the accepted-format list, and the concrete paths of the
unit tests: an optional leading slash and an optional `https://` or
`http://` scheme are dropped, an S3 host segment (containing
`.amazonaws.com`) is dropped, and what remains is `bucket/key...`; a
single remaining segment with a file extension is a key in the default
source bucket; anything else is unreadable. -/
def parsePath (defaultBucket : String) (path : String) : Option (String × String) :=
  let p0 := match path.data with
    | '/' :: rest => rest
    | l => l
  let p1 :=
    if listStartsWith p0 "https://".data then p0.drop 8
    else if listStartsWith p0 "http://".data then p0.drop 7
    else p0
  let segs0 := splitOnChar '/' p1
  let segs := match segs0 with
    | h :: t => if listIncludes h ".amazonaws.com".data then t else segs0
    | [] => segs0
  match segs with
  | [] => none
  | [single] =>
    if !single.isEmpty && single.contains '.' then some (defaultBucket, String.mk single)
    else none
  | b :: rest =>
    let key := joinSlash rest
    if !b.isEmpty && !key.isEmpty then some (String.mk b, String.mk key)
    else none

/-- Modelled from the spec: `ImageRequest.decodeRequest` (absent from the
staged sources): a missing or unparseable path throws
`DecodeRequest::CannotReadPath` with status 400; a well-formed path yields
the bucket and key extracted from it. -/
def decodeRequest (env : Env) (ev : HandlerEvent) : Except JsError DecodedRequest :=
  match ev.path with
  | none => Except.error cannotReadPathError
  | some p =>
    match parsePath (getDefaultBucket env.sourceBuckets) p with
    | none => Except.error cannotReadPathError
    | some (b, k) => Except.ok { bucket := b, key := k }

/-- the request information the setup step assembles (`ImageRequestInfo`
of `src/unnamed/part_000`, lines 45-58, restricted to the fields the
claims touch). -/
structure RequestInfo where
  bucket : String
  key : String
  edits : List Edit
  originalImage : Image
  customHeaders : Option (List (String × String))
  contentType : Option String
  expires : Option String
  lastModified : Option String
  cacheControl : Option String
deriving DecidableEq

/-- Modelled from the spec: the request info built from a decoded request,
the fetched source object and the event (the tail of `ImageRequest.setup`,
absent from the staged sources): bytes, content type, expiry and
modification data come from the object, the cache control falls back to
`max-age=31536000,public` as the tests expect, and edits and custom
headers come from the query string. -/
def infoOf (dr : DecodedRequest) (obj : S3Object) (ev : HandlerEvent) : RequestInfo :=
  { bucket := dr.bucket
    key := dr.key
    edits := ev.edits.getD []
    originalImage := obj.body
    customHeaders := ev.customHeaders
    contentType := obj.contentType
    expires := obj.expires
    lastModified := obj.lastModified
    cacheControl := some (obj.cacheControl.getD "max-age=31536000,public") }

/-- Modelled from the spec: the error `ImageRequest.getOriginalImage`
throws when the source `getObject` rejects (absent from the staged
sources): per the tests, the thrown error keeps the storage error's code,
takes status 404 and the message
`The image <key> does not exist or the request may not be base64 encoded properly.` -/
def sourceFetchError (e : JsError) (key : String) : JsError :=
  { status := some 404
    code := e.code
    message := some ("The image " ++ key ++ " does not exist or the request may not be base64 encoded properly.") }

/-- Modelled from the spec: `ImageRequest.setup` (absent from the staged
sources): decode the path, issue one `getObject` for the decoded bucket
and key, and build the request info from the result; alongside the
result, the `getObject` call trace of the step. -/
def setup (env : Env) (s3 : S3Model) (ev : HandlerEvent) :
    Except JsError RequestInfo × Trace :=
  match decodeRequest env ev with
  | Except.error e => (Except.error e, [])
  | Except.ok dr =>
    match s3 dr.bucket dr.key with
    | Except.error e => (Except.error (sourceFetchError e dr.key), [(dr.bucket, dr.key)])
    | Except.ok obj => (Except.ok (infoOf dr obj ev), [(dr.bucket, dr.key)])

/-- the repository's own overlay-dimension error, message as asserted by
`test/index.spec.ts` (lines 432-482). -/
def overlayDimensionError : JsError :=
  { status := some 400
    code := "BadRequest"
    message := some "Image to overlay must have same dimensions or smaller" }

/-- Modelled from the spec: compositing the overlay onto the base image is
the image library's pixel work (out of scope); the model keeps the base
dimensions and appends the overlay bytes. -/
def composite (base overlay : Image) : Image :=
  { bytes := base.bytes ++ overlay.bytes, width := base.width, height := base.height }

/-- Modelled from the spec: a supported edit is performed wholesale by the
image library (out of scope); the model tags the bytes with the edit name
so that distinct edits stay distinguishable. -/
def libraryEdit (name : String) (img : Image) : Image :=
  { img with bytes := img.bytes ++ stringBytes name }

/-- Modelled from the spec: applying one edit (`ImageHandler.applyEdits`,
absent from the staged sources).  An `overlayWith` edit fetches the
overlay object and, when the overlay's width or height exceeds the base
image's, throws the repository's 400 `BadRequest` overlay-dimension error
instead of applying it; an unknown edit key raises a status-less runtime
`TypeError`. -/
def applyEdit (s3 : S3Model) (img : Image) : Edit → Except JsError Image × Trace
  | Edit.overlayWith b k =>
    match s3 b k with
    | Except.error e => (Except.error (sourceFetchError e k), [(b, k)])
    | Except.ok obj =>
      if obj.body.width > img.width || obj.body.height > img.height then
        (Except.error overlayDimensionError, [(b, k)])
      else
        (Except.ok (composite img obj.body), [(b, k)])
  | Edit.known name => (Except.ok (libraryEdit name img), [])
  | Edit.unknown name =>
    (Except.error { status := none, code := "TypeError",
                    message := some ("image[" ++ name ++ "] is not a function") }, [])

/-- Modelled from the spec: applying the edits in order, accumulating the
`getObject` call trace; the first failing edit aborts the run. -/
def applyEdits (s3 : S3Model) (img : Image) : List Edit → Except JsError Image × Trace
  | [] => (Except.ok img, [])
  | e :: rest =>
    match applyEdit s3 img e with
    | (Except.error err, tr) => (Except.error err, tr)
    | (Except.ok img2, tr) =>
      let r := applyEdits s3 img2 rest
      (r.1, tr ++ r.2)

/-- Modelled from the spec: the whole request-transform pipeline of the
compute function: setup (decode and source fetch) followed by edit
application on the fetched bytes. -/
def pipeline (env : Env) (s3 : S3Model) (ev : HandlerEvent) :
    Except JsError (RequestInfo × Image) × Trace :=
  match setup env s3 ev with
  | (Except.error e, tr) => (Except.error e, tr)
  | (Except.ok info, tr) =>
    let r := applyEdits s3 info.originalImage info.edits
    match r.1 with
    | Except.error e => (Except.error e, tr ++ r.2)
    | Except.ok img => (Except.ok (info, img), tr ++ r.2)

/-- the serialized JSON body of an error that carries a status
(`JSON.stringify` of an `ImageHandlerError`: keys in order status, code,
message). -/
def errorBody (s : Nat) (code : String) (message : Option String) : String :=
  "\x7b\"status\":" ++ toString s ++ ",\"code\":\"" ++ code ++ "\",\"message\":"
    ++ (match message with
        | some m => "\"" ++ m ++ "\""
        | none => "null")
    ++ "\x7d"

/-- the serialized JSON body of the generic internal error (keys in order
message, code, status, as `test/index.spec.ts` lines 170-210 expect). -/
def internalErrorBody : String :=
  "\x7b\"message\":\"Internal error. Please contact the system administrator.\",\"code\":\"InternalError\",\"status\":500\x7d"

/-- Modelled from the spec: the handler's error taxonomy: an error
carrying a status keeps it and is serialized as its own JSON; an error
without a status becomes 500 `InternalError` with the fixed
administrator message. -/
def getErrorResponse (e : JsError) : Nat × String :=
  match e.status with
  | some s => (s, errorBody s e.code e.message)
  | none => (500, internalErrorBody)

/-- Modelled from the spec: the JSON error result the handler returns when
no fallback image applies: the taxonomy's status and body, error response
headers, not base64 encoded. -/
def errorResult (env : Env) (isAlb : Bool) (e : JsError) : ExecResult :=
  { statusCode := (getErrorResponse e).1
    isBase64Encoded := false
    headers := getResponseHeaders env true isAlb
    body := (getErrorResponse e).2 }

/-- the guard of the handler's fallback branch: the default fallback image
is enabled and its bucket and key are both non-blank. -/
def fallbackEnabled (env : Env) : Bool :=
  env.enableDefaultFallbackImage = "Yes"
    && !isNullOrWhitespaceStr env.defaultFallbackImageBucket
    && !isNullOrWhitespaceStr env.defaultFallbackImageKey

/-- Modelled from the spec: the handler's catch branch: when the default
fallback image is enabled and its bucket and key are non-blank, the
fallback object is fetched and returned base64-encoded under the original
error's status; when that fetch fails, or the fallback is not (fully)
configured, the JSON error result is returned instead. -/
def handleError (env : Env) (s3 : S3Model) (isAlb : Bool) (e : JsError) :
    ExecResult × Trace :=
  if fallbackEnabled env then
    match s3 env.defaultFallbackImageBucket env.defaultFallbackImageKey with
    | Except.ok fb =>
      ({ statusCode := (getErrorResponse e).1
         isBase64Encoded := true
         headers := getResponseHeaders env false isAlb
           ++ [("Content-Type", hopt fb.contentType),
               ("Last-Modified", hopt fb.lastModified),
               ("Cache-Control", HVal.s "max-age=31536000,public")]
         body := base64Encode fb.body.bytes },
       [(env.defaultFallbackImageBucket, env.defaultFallbackImageKey)])
    | Except.error _ =>
      (errorResult env isAlb e, [(env.defaultFallbackImageBucket, env.defaultFallbackImageKey)])
  else
    (errorResult env isAlb e, [])

/-- Modelled from the spec: the success response: status 200, base64 body
of the processed bytes, response headers carrying the image's content
type, expiry, modification and cache-control data, then the request's
custom headers (later entries override). -/
def successResult (env : Env) (ev : HandlerEvent) (info : RequestInfo) (img : Image) :
    ExecResult :=
  { statusCode := 200
    isBase64Encoded := true
    headers := getResponseHeaders env false ev.isAlb
      ++ [("Content-Type", hopt info.contentType),
          ("Expires", hopt info.expires),
          ("Last-Modified", hopt info.lastModified),
          ("Cache-Control", hopt info.cacheControl)]
      ++ (info.customHeaders.getD []).map (fun p => (p.1, HVal.s p.2))
    body := base64Encode img.bytes }

/-- Modelled from the spec: the exported `handler` of
`source/image-handler/index.ts` (absent from the staged sources), paired
with its `getObject` call trace: run the pipeline; on success return the
success response, on failure run the fallback-or-JSON error branch. -/
def handler (env : Env) (s3 : S3Model) (ev : HandlerEvent) : ExecResult × Trace :=
  match pipeline env s3 ev with
  | (Except.ok (info, img), tr) => (successResult env ev info img, tr)
  | (Except.error e, tr) =>
    let r := handleError env s3 ev.isAlb e
    (r.1, tr ++ r.2)

/-! ## Concrete fixtures mirroring the repository's unit tests -/

/-- the mock source image of `test/index.spec.ts`:
`Buffer.from("SampleImageContent\n")`. -/
def mockImage1 : Image :=
  { bytes := stringBytes "SampleImageContent\n", width := 10, height := 10 }

/-- the mock source object returned by the S3 mock of the first test. -/
def mockObj1 : S3Object :=
  { body := mockImage1, contentType := some "image/jpeg", cacheControl := none,
    expires := none, lastModified := none }

/-- the environment of the early tests: `SOURCE_BUCKETS=source-bucket`,
CORS and fallback off. -/
def mockEnv1 : Env :=
  { corsEnabled := "No", corsOrigin := "", sourceBuckets := "source-bucket",
    enableDefaultFallbackImage := "No", defaultFallbackImageBucket := "",
    defaultFallbackImageKey := "" }

/-- the environment after the fallback tests arrange it: CORS on with
origin `*`, fallback image enabled with bucket and key. -/
def mockEnvFallback : Env :=
  { corsEnabled := "Yes", corsOrigin := "*", sourceBuckets := "source-bucket",
    enableDefaultFallbackImage := "Yes",
    defaultFallbackImageBucket := "fallback-image-bucket",
    defaultFallbackImageKey := "fallback-image.png" }

/-- the environment with CORS on but the fallback image disabled. -/
def mockEnvCors : Env :=
  { corsEnabled := "Yes", corsOrigin := "*", sourceBuckets := "source-bucket",
    enableDefaultFallbackImage := "No", defaultFallbackImageBucket := "",
    defaultFallbackImageKey := "" }

/-- an S3 model holding exactly `source-bucket/test.jpg`. -/
def mockS3a : S3Model := fun b k =>
  if b == "source-bucket" && k == "test.jpg" then Except.ok mockObj1
  else Except.error { status := some 404, code := "NoSuchKey", message := some "NoSuchKey error happened." }

/-- an S3 model rejecting every `getObject` with `NoSuchKey`. -/
def mockS3err : S3Model := fun _ _ =>
  Except.error { status := some 404, code := "NoSuchKey", message := some "NoSuchKey error happened." }

/-- the mock fallback image of `test/index.spec.ts`:
`Buffer.from("SampleFallbackImageContent\n")`. -/
def fbImage1 : Image :=
  { bytes := stringBytes "SampleFallbackImageContent\n", width := 1, height := 1 }

/-- the fallback object the second mock of the fallback test resolves. -/
def fbObj1 : S3Object :=
  { body := fbImage1, contentType := some "image/png", cacheControl := none,
    expires := none, lastModified := none }

/-- the S3 model of the fallback test: the source fetch rejects with a
status-500 `UnknownError`, the fallback object resolves. -/
def mockS3fb : S3Model := fun b k =>
  if b == "fallback-image-bucket" && k == "fallback-image.png" then Except.ok fbObj1
  else Except.error { status := some 500, code := "UnknownError", message := none }

/-- the event of the first test: `{ path: "/test.jpg" }`. -/
def mockEvent1 : HandlerEvent :=
  { path := some "/test.jpg", edits := none, customHeaders := none, isAlb := false }

/-- the decoded request of the first test. -/
def mockDr1 : DecodedRequest :=
  { bucket := "source-bucket", key := "test.jpg" }

/-- the 5x5 base image of the overlay test. -/
def baseImage5 : Image :=
  { bytes := stringBytes "transparent-5x5", width := 5, height := 5 }

/-- the 10x10 overlay image of the overlay test. -/
def overImage10 : Image :=
  { bytes := stringBytes "transparent-10x10", width := 10, height := 10 }

/-- the S3 model of the overlay test: the mock hands the 5x5 image back
for key `transparent-10x10.png` and the 10x10 image for the overlay key. -/
def mockS3ov : S3Model := fun _ k =>
  if k == "transparent-10x10.png" then
    Except.ok { body := baseImage5, contentType := none, cacheControl := none,
                expires := none, lastModified := none }
  else
    Except.ok { body := overImage10, contentType := none, cacheControl := none,
                expires := none, lastModified := none }

/-- the event of the overlay test. -/
def mockEventOv : HandlerEvent :=
  { path := some "source-bucket/transparent-10x10.png"
    edits := some [Edit.overlayWith "source-bucket" "transparent-5x5.png"]
    customHeaders := some [("Custom-Header", "Custom header test"), ("Cache-Control", "max-age:1,public")]
    isAlb := false }

/-- a viewer request whose query string holds the five allowlisted
parameters plus an unlisted one. -/
def viewerReqExtra : ViewerRequest :=
  { headers := [("accept", "image/webp"), ("x-extra", "1")]
    queryParams := [("edits", "e"), ("signature", "s"), ("width", "900"), ("foo", "bar")] }

/-- the same viewer request without the unlisted query parameters. -/
def viewerReqPlain : ViewerRequest :=
  { headers := [("accept", "image/webp")]
    queryParams := [("edits", "e"), ("signature", "s")] }

/-! ## Helper lemmas -/

/-- `List.all` after a `map` between distinct types. -/
theorem all_map_general {α β : Type} (l : List α) (f : α → β) (p : β → Bool) :
    (l.map f).all p = l.all (fun a => p (f a)) := by
  induction l with
  | nil => rfl
  | cons a t ih => simp [List.all_cons, ih]

/-- folding a header list containing no entry for `k` leaves the
accumulator unchanged. -/
theorem getHeader_skip (l : List (String × HVal)) (k : String) (acc : Option HVal)
    (h : l.all (fun p => p.1 != k) = true) :
    l.foldl (fun acc p => if p.1 == k then some p.2 else acc) acc = acc := by
  induction l generalizing acc with
  | nil => rfl
  | cons p t ih =>
    simp only [List.all_cons, Bool.and_eq_true] at h
    have hk : (p.1 == k) = false := by
      rcases h with ⟨h1, _⟩
      simpa using h1
    simp only [List.foldl_cons, hk, Bool.false_eq_true, if_false]
    exact ih acc h.2

/-- a later entry for `k` overrides everything before it, provided no
entry after it carries `k` again. -/
theorem getHeader_override (l1 l2 : List (String × HVal)) (k : String) (v : HVal)
    (h : l2.all (fun p => p.1 != k) = true) :
    getHeader (l1 ++ (k, v) :: l2) k = some v := by
  unfold getHeader
  rw [List.foldl_append, List.foldl_cons, if_pos (beq_self_eq_true k)]
  exact getHeader_skip l2 k _ h

/-- the error response headers always carry the JSON content type. -/
theorem getResponseHeaders_json (env : Env) (isAlb : Bool) :
    getHeader (getResponseHeaders env true isAlb) "Content-Type" =
      some (HVal.s "application/json") := by
  unfold getResponseHeaders getHeader
  cases isAlb <;> by_cases hc : env.corsEnabled = "Yes" <;> simp [hc]

/-! ## The claims -/

/-- C6: the CDN cache policy has default TTL one day (86400 s), minimum
TTL one second, maximum TTL 365 days, and its cache key is restricted to
the `origin` and `accept` headers plus exactly the five query parameters
`signature`, `edits`, `headers`, `effort` and `outputFormat`; the handler
itself (a pure function in this embedding) implements no caching logic. -/
theorem claim_C6 (uuid : String) :
    (cachePolicy uuid).defaultTtlSeconds = 86400 ∧
    (cachePolicy uuid).minTtlSeconds = 1 ∧
    (cachePolicy uuid).maxTtlSeconds = 365 * 86400 ∧
    (cachePolicy uuid).headerAllowList = ["origin", "accept"] ∧
    (cachePolicy uuid).queryStringAllowList =
      ["signature", "edits", "headers", "effort", "outputFormat"] :=
  ⟨rfl, rfl, rfl, rfl, rfl⟩

/-- C8: the viewer-request function forwards a request with a non-empty
accept header with that header normalized to exactly `image/webp` when the
value contains `image/webp` and exactly `image/jpg` otherwise (so at most
two accept variants reach the cache), and forwards a request without an
accept header unchanged. -/
theorem claim_C8 (req : CloudFrontRequest) :
    (∀ v, req.headers.accept = some v → v ≠ "" →
      normalizeAcceptHeader req =
        { req with headers := { req.headers with
            accept := some (if strIncludes v "image/webp" then "image/webp" else "image/jpg") } } ∧
      ((normalizeAcceptHeader req).headers.accept = some "image/webp" ∨
       (normalizeAcceptHeader req).headers.accept = some "image/jpg")) ∧
    (req.headers.accept = none → normalizeAcceptHeader req = req) := by
  refine ⟨?_, fun h => by simp [normalizeAcceptHeader, h]⟩
  intro v hv hne
  have h1 : normalizeAcceptHeader req =
      { req with headers := { req.headers with
          accept := some (if strIncludes v "image/webp" then "image/webp" else "image/jpg") } } := by
    simp [normalizeAcceptHeader, hv, hne]
  refine ⟨h1, ?_⟩
  rw [h1]
  cases hw : strIncludes v "image/webp" with
  | false => exact Or.inr (by simp [hw])
  | true => exact Or.inl (by simp [hw])

/-- C8 witness: a webp-capable accept value is normalized to `image/webp`,
a webp-less one to `image/jpg`, and an absent accept header is left
untouched. -/
theorem claim_C8_witness :
    normalizeAcceptHeader { uri := "/a.jpg", headers := { accept := some "text/html,image/webp,*/*", rest := [] } } =
      { uri := "/a.jpg", headers := { accept := some "image/webp", rest := [] } } ∧
    normalizeAcceptHeader { uri := "/a.jpg", headers := { accept := some "text/html,*/*", rest := [] } } =
      { uri := "/a.jpg", headers := { accept := some "image/jpg", rest := [] } } ∧
    normalizeAcceptHeader { uri := "/a.jpg", headers := { accept := none, rest := [] } } =
      { uri := "/a.jpg", headers := { accept := none, rest := [] } } := by
  refine ⟨?_, ?_, (claim_C8 _).2 rfl⟩
  · exact ((claim_C8 _).1 "text/html,image/webp,*/*" rfl (by decide)).1.trans (by decide)
  · exact ((claim_C8 _).1 "text/html,*/*" rfl (by decide)).1.trans (by decide)

/-- C9: the cache policy and origin request policy allowlist identical
header and query-string sets, so two requests agreeing on the `origin` and
`accept` headers and on the five allowlisted query parameters produce the
same cache key and the same forwarded request, whatever their other query
parameters are. -/
theorem claim_C9 (uuid : String) :
    (cachePolicy uuid).headerAllowList = (originRequestPolicy uuid).headerAllowList ∧
    (cachePolicy uuid).queryStringAllowList = (originRequestPolicy uuid).queryStringAllowList ∧
    ∀ r1 r2 : ViewerRequest,
      (∀ k ∈ queryStringParameters, lookupFirst r1.queryParams k = lookupFirst r2.queryParams k) →
      (∀ k ∈ (["origin", "accept"] : List String), lookupFirst r1.headers k = lookupFirst r2.headers k) →
      cacheKeyOf uuid r1 = cacheKeyOf uuid r2 ∧ forwardedOf uuid r1 = forwardedOf uuid r2 := by
  refine ⟨rfl, rfl, ?_⟩
  intro r1 r2 hq hh
  have hmapH : (["origin", "accept"] : List String).map (fun k => (k, lookupFirst r1.headers k))
      = (["origin", "accept"] : List String).map (fun k => (k, lookupFirst r2.headers k)) :=
    List.map_congr_left (fun k hk => by rw [hh k hk])
  have hmapQ : queryStringParameters.map (fun k => (k, lookupFirst r1.queryParams k))
      = queryStringParameters.map (fun k => (k, lookupFirst r2.queryParams k)) :=
    List.map_congr_left (fun k hk => by rw [hq k hk])
  exact ⟨Prod.ext hmapH hmapQ, Prod.ext hmapH hmapQ⟩

/-- C9 witness: adding the unlisted query parameters `width` and `foo` and
an unlisted header changes neither the cache key nor the forwarded
request. -/
theorem claim_C9_witness :
    cacheKeyOf "uuid" viewerReqExtra = cacheKeyOf "uuid" viewerReqPlain ∧
    forwardedOf "uuid" viewerReqExtra = forwardedOf "uuid" viewerReqPlain :=
  (claim_C9 "uuid").2.2 viewerReqExtra viewerReqPlain (by decide) (by decide)

/-- C10: whatever the custom-domain, certificate, price-class and
origin-shield options, the distribution's default behavior allows only GET
and HEAD over HTTPS only, and each origin error status 500-504 is cached
for exactly 10 minutes (600 seconds). -/
theorem claim_C10 (customDomain : Option String) (certificate : Option String)
    (priceClass : String) (originShieldEnabled : Bool) (originShieldRegion : String) :
    (cloudFrontDistributionProps customDomain certificate priceClass
        originShieldEnabled originShieldRegion).allowedMethods = ["GET", "HEAD"] ∧
    (cloudFrontDistributionProps customDomain certificate priceClass
        originShieldEnabled originShieldRegion).viewerProtocolPolicy = "https-only" ∧
    (cloudFrontDistributionProps customDomain certificate priceClass
        originShieldEnabled originShieldRegion).errorResponses =
      [{ httpStatus := 500, ttlSeconds := 600 }, { httpStatus := 501, ttlSeconds := 600 },
       { httpStatus := 502, ttlSeconds := 600 }, { httpStatus := 503, ttlSeconds := 600 },
       { httpStatus := 504, ttlSeconds := 600 }] ∧
    ((cloudFrontDistributionProps customDomain certificate priceClass
        originShieldEnabled originShieldRegion).errorResponses.map
      ErrorResponseConfig.httpStatus) = [500, 501, 502, 503, 504] ∧
    ((cloudFrontDistributionProps customDomain certificate priceClass
        originShieldEnabled originShieldRegion).errorResponses.all
      (fun r => r.ttlSeconds == 600)) = true :=
  ⟨rfl, rfl, rfl, rfl, rfl⟩

/-- C1: a successfully processed request yields status 200, a base64
body holding exactly the encoding of the transformed image bytes, and
(when no custom header shadows it) a Content-Type response header equal to
the image's content type. -/
theorem claim_C1 (env : Env) (s3 : S3Model) (ev : HandlerEvent)
    (info : RequestInfo) (img : Image) (tr : Trace)
    (h : pipeline env s3 ev = (Except.ok (info, img), tr)) :
    (handler env s3 ev).1.statusCode = 200 ∧
    (handler env s3 ev).1.isBase64Encoded = true ∧
    (handler env s3 ev).1.body = base64Encode img.bytes ∧
    ((info.customHeaders.getD []).all (fun p => p.1 != "Content-Type") = true →
      getHeader (handler env s3 ev).1.headers "Content-Type" = some (hopt info.contentType)) := by
  have hh : handler env s3 ev = (successResult env ev info img, tr) := by
    simp [handler, h]
  refine ⟨by rw [hh]; rfl, by rw [hh]; rfl, by rw [hh]; rfl, ?_⟩
  intro hc
  rw [hh]
  show getHeader (successResult env ev info img).headers "Content-Type" = _
  unfold successResult
  simp only [List.append_assoc, List.cons_append, List.nil_append]
  refine getHeader_override _ _ _ _ ?_
  simp only [List.all_cons, Bool.and_eq_true]
  exact ⟨by decide, by decide, by decide, by rw [all_map_general]; exact hc⟩

/-- C1 witness: the first test of `test/index.spec.ts`: for
`{ path: "/test.jpg" }` with the source object present, the handler
returns 200, base64 body `U2FtcGxlSW1hZ2VDb250ZW50Cg==` (the encoding of
`SampleImageContent\n`) and content type `image/jpeg`. -/
theorem claim_C1_witness :
    (handler mockEnv1 mockS3a mockEvent1).1.statusCode = 200 ∧
    (handler mockEnv1 mockS3a mockEvent1).1.isBase64Encoded = true ∧
    (handler mockEnv1 mockS3a mockEvent1).1.body = "U2FtcGxlSW1hZ2VDb250ZW50Cg==" ∧
    getHeader (handler mockEnv1 mockS3a mockEvent1).1.headers "Content-Type" =
      some (HVal.s "image/jpeg") := by
  have h := claim_C1 mockEnv1 mockS3a mockEvent1 (infoOf mockDr1 mockObj1 mockEvent1)
    mockImage1 [("source-bucket", "test.jpg")] rfl
  exact ⟨h.1, h.2.1, h.2.2.1.trans (by decide), h.2.2.2 (by decide)⟩

/-- C2: `decodeRequest` returns the 400 `DecodeRequest::CannotReadPath`
error (with the documented message) when the path is missing or
unparseable, and the bucket and key extracted from the path when it is
well formed. -/
theorem claim_C2 (env : Env) (ev : HandlerEvent) :
    (ev.path = none → decodeRequest env ev = Except.error cannotReadPathError) ∧
    (∀ p, ev.path = some p →
      parsePath (getDefaultBucket env.sourceBuckets) p = none →
      decodeRequest env ev = Except.error cannotReadPathError) ∧
    (∀ p b k, ev.path = some p →
      parsePath (getDefaultBucket env.sourceBuckets) p = some (b, k) →
      decodeRequest env ev = Except.ok { bucket := b, key := k }) := by
  refine ⟨fun h => by simp [decodeRequest, h],
          fun p hp hn => by simp [decodeRequest, hp, hn],
          fun p b k hp hs => by simp [decodeRequest, hp, hs]⟩

/-- C2 witness: the three cases of `decode-request.spec.ts`: a full S3 URL
path decodes to its bucket and key, and an extension-less single segment
or a missing path raises `DecodeRequest::CannotReadPath`. -/
theorem claim_C2_witness :
    decodeRequest mockEnv1
        { path := some "/https://s3-eu-west-1.amazonaws.com/bucket-name-here/key-name-here",
          edits := none, customHeaders := none, isAlb := false } =
      Except.ok { bucket := "bucket-name-here", key := "key-name-here" } ∧
    decodeRequest mockEnv1
        { path := some "/someNonBase64EncodedContentHere",
          edits := none, customHeaders := none, isAlb := false } =
      Except.error cannotReadPathError ∧
    decodeRequest mockEnv1
        { path := none, edits := none, customHeaders := none, isAlb := false } =
      Except.error cannotReadPathError := by
  refine ⟨(claim_C2 mockEnv1 _).2.2 _ "bucket-name-here" "key-name-here" rfl rfl,
          (claim_C2 mockEnv1 _).2.1 _ rfl rfl,
          (claim_C2 mockEnv1 _).1 rfl⟩

/-- C3: when the source-image fetch fails and the default fallback image
is enabled with non-blank bucket and key, the handler returns the fetched
fallback bytes base64-encoded under the original error's status code; when
the fallback is not (fully) configured or its fetch fails, it returns the
JSON error result, which is not base64-encoded and carries the error's
JSON body. -/
theorem claim_C3 (env : Env) (s3 : S3Model) (ev : HandlerEvent) (e : JsError) (tr : Trace)
    (hsetup : setup env s3 ev = (Except.error e, tr)) :
    (fallbackEnabled env = true →
      (∀ fb, s3 env.defaultFallbackImageBucket env.defaultFallbackImageKey = Except.ok fb →
        (handler env s3 ev).1.statusCode = (getErrorResponse e).1 ∧
        (handler env s3 ev).1.isBase64Encoded = true ∧
        (handler env s3 ev).1.body = base64Encode fb.body.bytes) ∧
      (∀ err, s3 env.defaultFallbackImageBucket env.defaultFallbackImageKey = Except.error err →
        (handler env s3 ev).1 = errorResult env ev.isAlb e)) ∧
    (fallbackEnabled env = false →
      (handler env s3 ev).1 = errorResult env ev.isAlb e) ∧
    (errorResult env ev.isAlb e).isBase64Encoded = false ∧
    (errorResult env ev.isAlb e).body = (getErrorResponse e).2 := by
  have hp : pipeline env s3 ev = (Except.error e, tr) := by
    simp [pipeline, hsetup]
  have hh : (handler env s3 ev).1 = (handleError env s3 ev.isAlb e).1 := by
    simp [handler, hp]
  refine ⟨?_, ?_, rfl, rfl⟩
  · intro hen
    refine ⟨fun fb hfb => ?_, fun err herr => ?_⟩
    · rw [hh]
      simp [handleError, hen, hfb]
    · rw [hh]
      simp [handleError, hen, herr]
  · intro hen
    rw [hh]
    simp [handleError, hen]

/-- C3 witness: the fallback test of `test/index.spec.ts` (source fetch
rejects with a status-500 `UnknownError`, fallback object present): status
404 (the transformed original error's status) with the fallback bytes
base64-encoded; and with the fallback disabled the same error yields the
non-base64 JSON error result. -/
theorem claim_C3_witness :
    (handler mockEnvFallback mockS3fb mockEvent1).1.statusCode = 404 ∧
    (handler mockEnvFallback mockS3fb mockEvent1).1.isBase64Encoded = true ∧
    (handler mockEnvFallback mockS3fb mockEvent1).1.body = base64Encode fbImage1.bytes ∧
    (handler mockEnv1 mockS3err mockEvent1).1 =
      errorResult mockEnv1 false (sourceFetchError
        { status := some 404, code := "NoSuchKey", message := some "NoSuchKey error happened." }
        "test.jpg") := by
  have h1 := claim_C3 mockEnvFallback mockS3fb mockEvent1
    (sourceFetchError { status := some 500, code := "UnknownError", message := none } "test.jpg")
    [("source-bucket", "test.jpg")] rfl
  have h2 := claim_C3 mockEnv1 mockS3err mockEvent1
    (sourceFetchError
      { status := some 404, code := "NoSuchKey", message := some "NoSuchKey error happened." }
      "test.jpg")
    [("source-bucket", "test.jpg")] rfl
  have hfb := (h1.1 (by decide)).1 fbObj1 rfl
  exact ⟨hfb.1, hfb.2.1, hfb.2.2, h2.2.1 (by decide)⟩

/-- C4: with the fallback image not in play, an error carrying a status is
returned under that status with its own JSON serialization
(`{status, code, message}`), not base64-encoded, with content type
`application/json`; an error without a status becomes 500 `InternalError`
with the fixed administrator message. -/
theorem claim_C4 (env : Env) (s3 : S3Model) (ev : HandlerEvent) (e : JsError) (tr : Trace)
    (hp : pipeline env s3 ev = (Except.error e, tr))
    (hfb : fallbackEnabled env = false) :
    (∀ s, e.status = some s →
      (handler env s3 ev).1 =
        { statusCode := s, isBase64Encoded := false,
          headers := getResponseHeaders env true ev.isAlb,
          body := errorBody s e.code e.message }) ∧
    (e.status = none →
      (handler env s3 ev).1 =
        { statusCode := 500, isBase64Encoded := false,
          headers := getResponseHeaders env true ev.isAlb,
          body := internalErrorBody }) ∧
    getHeader (getResponseHeaders env true ev.isAlb) "Content-Type" =
      some (HVal.s "application/json") := by
  have hh : (handler env s3 ev).1 = errorResult env ev.isAlb e := by
    simp [handler, hp, handleError, hfb]
  refine ⟨fun s hs => ?_, fun hs => ?_, getResponseHeaders_json env ev.isAlb⟩
  · rw [hh]
    simp [errorResult, getErrorResponse, hs]
  · rw [hh]
    simp [errorResult, getErrorResponse, hs]

/-- C4 witness: the `NoSuchKey` test (status 404 carried through with the
error's JSON body) and the unknown-edit test (status-less `TypeError`
becomes the 500 `InternalError` body). -/
theorem claim_C4_witness :
    (handler mockEnv1 mockS3err mockEvent1).1 =
      { statusCode := 404, isBase64Encoded := false,
        headers := getResponseHeaders mockEnv1 true false,
        body := errorBody 404 "NoSuchKey"
          (some "The image test.jpg does not exist or the request may not be base64 encoded properly.") } ∧
    (handler mockEnv1 mockS3a
        { path := some "/test.jpg", edits := some [Edit.unknown "wrongFilter"],
          customHeaders := none, isAlb := false }).1 =
      { statusCode := 500, isBase64Encoded := false,
        headers := getResponseHeaders mockEnv1 true false,
        body := internalErrorBody } := by
  have h1 := claim_C4 mockEnv1 mockS3err mockEvent1
    (sourceFetchError
      { status := some 404, code := "NoSuchKey", message := some "NoSuchKey error happened." }
      "test.jpg")
    [("source-bucket", "test.jpg")] rfl rfl
  have h2 := claim_C4 mockEnv1 mockS3a
    { path := some "/test.jpg", edits := some [Edit.unknown "wrongFilter"],
      customHeaders := none, isAlb := false }
    { status := none, code := "TypeError", message := some "image[wrongFilter] is not a function" }
    [("source-bucket", "test.jpg")] rfl rfl
  exact ⟨h1.1 404 rfl, h2.2.1 rfl⟩

/-- C5: when the path decodes and the source object exists, the pipeline
issues exactly one source `getObject` call, with the decoded bucket and
key, and hands the fetched bytes to the edit-application step as its
input image. -/
theorem claim_C5 (env : Env) (s3 : S3Model) (ev : HandlerEvent)
    (dr : DecodedRequest) (obj : S3Object)
    (hd : decodeRequest env ev = Except.ok dr)
    (hs : s3 dr.bucket dr.key = Except.ok obj) :
    pipeline env s3 ev =
      ((applyEdits s3 obj.body (ev.edits.getD [])).1.map (fun img => (infoOf dr obj ev, img)),
       (dr.bucket, dr.key) :: (applyEdits s3 obj.body (ev.edits.getD [])).2) := by
  have hst : setup env s3 ev = (Except.ok (infoOf dr obj ev), [(dr.bucket, dr.key)]) := by
    simp [setup, hd, hs]
  have hae : applyEdits s3 (infoOf dr obj ev).originalImage (infoOf dr obj ev).edits
      = applyEdits s3 obj.body (ev.edits.getD []) := rfl
  simp only [pipeline, hst, hae]
  rcases h : applyEdits s3 obj.body (ev.edits.getD []) with ⟨res, tr2⟩
  cases res <;> simp [h, Except.map]

/-- C5 witness: on the first test's input, the pipeline fetches exactly
`source-bucket/test.jpg` once and returns the fetched image untouched. -/
theorem claim_C5_witness :
    pipeline mockEnv1 mockS3a mockEvent1 =
      (Except.ok (infoOf mockDr1 mockObj1 mockEvent1, mockImage1),
       [("source-bucket", "test.jpg")]) :=
  (claim_C5 mockEnv1 mockS3a mockEvent1 mockDr1 mockObj1 rfl rfl).trans rfl

/-- C7: an `overlayWith` edit whose fetched overlay is wider or taller
than the base image is not applied: the edit step raises the 400
`BadRequest` overlay-dimension error and the handler returns it as a
non-base64 JSON response with the documented message. -/
theorem claim_C7 (env : Env) (s3 : S3Model) (ev : HandlerEvent) (dr : DecodedRequest)
    (obj ovObj : S3Object) (b k : String)
    (hd : decodeRequest env ev = Except.ok dr)
    (hs : s3 dr.bucket dr.key = Except.ok obj)
    (he : ev.edits = some [Edit.overlayWith b k])
    (ho : s3 b k = Except.ok ovObj)
    (hdim : ovObj.body.width > obj.body.width ∨ ovObj.body.height > obj.body.height)
    (hfb : fallbackEnabled env = false) :
    applyEdit s3 obj.body (Edit.overlayWith b k) =
      (Except.error overlayDimensionError, [(b, k)]) ∧
    (handler env s3 ev).1 =
      { statusCode := 400, isBase64Encoded := false,
        headers := getResponseHeaders env true ev.isAlb,
        body := errorBody 400 "BadRequest"
          (some "Image to overlay must have same dimensions or smaller") } := by
  have hcond : (decide (ovObj.body.width > obj.body.width)
      || decide (ovObj.body.height > obj.body.height)) = true := by
    rcases hdim with h | h <;> simp [h]
  have hae : applyEdit s3 obj.body (Edit.overlayWith b k) =
      (Except.error overlayDimensionError, [(b, k)]) := by
    simp [applyEdit, ho, hcond]
  have hsetup : setup env s3 ev = (Except.ok (infoOf dr obj ev), [(dr.bucket, dr.key)]) := by
    simp [setup, hd, hs]
  have hp : pipeline env s3 ev = (Except.error overlayDimensionError, [(dr.bucket, dr.key), (b, k)]) := by
    simp [pipeline, hsetup, infoOf, he, applyEdits, hae]
  have hh : (handler env s3 ev).1 = errorResult env ev.isAlb overlayDimensionError := by
    simp [handler, hp, handleError, hfb]
  exact ⟨hae, hh.trans rfl⟩

/-- C7 witness: the overlay test of `test/index.spec.ts`: 5x5 base,
10x10 overlay, result 400 with the overlay-dimension JSON body. -/
theorem claim_C7_witness :
    applyEdit mockS3ov baseImage5 (Edit.overlayWith "source-bucket" "transparent-5x5.png") =
      (Except.error overlayDimensionError, [("source-bucket", "transparent-5x5.png")]) ∧
    (handler mockEnvCors mockS3ov mockEventOv).1 =
      { statusCode := 400, isBase64Encoded := false,
        headers := getResponseHeaders mockEnvCors true false,
        body := errorBody 400 "BadRequest"
          (some "Image to overlay must have same dimensions or smaller") } :=
  claim_C7 mockEnvCors mockS3ov mockEventOv
    { bucket := "source-bucket", key := "transparent-10x10.png" }
    { body := baseImage5, contentType := none, cacheControl := none,
      expires := none, lastModified := none }
    { body := overImage10, contentType := none, cacheControl := none,
      expires := none, lastModified := none }
    "source-bucket" "transparent-5x5.png"
    rfl rfl rfl rfl (Or.inl (by decide)) rfl

end AwsSih
